import Mathlib

/-!
Verification development for the resume-reviewer application.

The definitions below are a shallow embedding of the TypeScript source:
* `src/types/api.ts` — the data model (`CandidateResult`, `RejectionEmail`, …);
* `src/components/ProcessingPage.tsx` — `simulateMockProcessing` (mock
  candidate generation, classification at threshold 80, rejection drafts);
* `src/components/ResultsPage.tsx` — shortlisted/rejected partitioning and
  the displayed average score (`Math.round(sum / length)`);
* `src/components/UploadPage.tsx` — the acceptance filter of `handleFileUpload`;
* `src/services/api.ts` — the form data built by `resumeAPI.processResumes`;
* `src/context/ResumeContext.tsx` — the shared context interface.

JavaScript numbers are modelled by `ℤ`/`ℚ`; the special values produced by
division (`NaN`, `±Infinity`) are modelled by the tagged type `JSNum`.
`Math.random()` draws are passed in explicitly as rational parameters.
The backend pipeline (`runScreening`) is implemented in a FastAPI service
that is not part of the frontend sources; it is modelled from the spec at
the end of the definitions section.
-/

namespace ResumeReviewer

/-- The `status` field of `CandidateResult` in `src/types/api.ts`: the
two-valued union of the literals `shortlisted` and `rejected`. -/
inductive Status where
  | shortlisted
  | rejected
deriving DecidableEq, Repr

/-- `CandidateResult` from `src/types/api.ts` (the optional fields `phone`,
`education`, `location`, `extractedText` are kept). -/
structure CandidateResult where
  id : String
  fileName : String
  candidate : String
  email : String
  phone : Option String := none
  score : ℤ
  status : Status
  summary : String
  experience : String
  skills : List String
  education : Option String := none
  location : Option String := none
  extractedText : Option String := none
deriving DecidableEq, Repr

/-- `RejectionEmail` from `src/types/api.ts`. -/
structure RejectionEmail where
  candidateId : String
  candidate : String
  email : String
  subject : String
  content : String
deriving DecidableEq, Repr

/-! ### Decimal representation of `ℕ`

`ProcessingPage.tsx` forms candidate ids with the template string
`resume_${index}`, i.e. the decimal representation of the index, which in
Lean is `Nat.repr`.  To reason about distinctness of ids we relate
`Nat.repr` to a structurally recursive digits function `decDigits` and a
parse-back function `decValue`, and derive injectivity. -/

/-- Decimal digit characters of `n`, most significant first. -/
def decDigits (n : ℕ) : List Char :=
  if h : n / 10 = 0 then [Nat.digitChar (n % 10)]
  else decDigits (n / 10) ++ [Nat.digitChar (n % 10)]
decreasing_by
  exact Nat.div_lt_self (Nat.pos_of_ne_zero (fun h0 => h (by simp [h0]))) (by norm_num)

/-- Parse a digit string back to a number. -/
def decValue (l : List Char) : ℕ :=
  l.foldl (fun a c => 10 * a + (c.toNat - 48)) 0

/-! ### Mock processing (`simulateMockProcessing`, `ProcessingPage.tsx`)

`simulateMockProcessing` maps over `uploadedFiles` with an index; for each
file it draws `Math.random()` several times.  We pass the draws in
explicitly: `RandDraws` carries one rational per `Math.random()` call site. -/

/-- One `Math.random()` draw per call site in the candidate construction of
`simulateMockProcessing` (score, summary years, experience years, skills
count). -/
structure RandDraws where
  scoreDraw : ℚ
  summaryYearsDraw : ℚ
  expYearsDraw : ℚ
  skillsDraw : ℚ

/-- The `candidates` name array in `simulateMockProcessing`. -/
def mockCandidateNames : List String :=
  ["Sarah Johnson", "Michael Chen", "Emily Rodriguez", "David Kumar", "Jessica Williams",
   "Alex Thompson", "Maria Garcia", "James Wilson", "Lauren Davis", "Robert Martinez"]

/-- The `emails` array in `simulateMockProcessing`. -/
def mockCandidateEmails : List String :=
  ["sarah.j@email.com", "michael.c@email.com", "emily.r@email.com", "david.k@email.com",
   "jessica.w@email.com", "alex.t@email.com", "maria.g@email.com", "james.w@email.com",
   "lauren.d@email.com", "robert.m@email.com"]

/-- The fixed skills pool in `simulateMockProcessing`. -/
def mockSkillsPool : List String :=
  ["JavaScript", "React", "Node.js", "Python", "SQL", "TypeScript", "AWS", "Docker"]

/-- The candidate record built for one `(file, index)` pair in
`simulateMockProcessing`:
`score = Math.floor(Math.random() * 40) + 60`,
`status = score >= 80 ? shortlisted : rejected`, and the other fields as in
the source. -/
def mkMockResume (rand : ℕ → RandDraws) (index : ℕ) (fileName : String) : CandidateResult :=
  let r := rand index
  let score : ℤ := ⌊r.scoreDraw * 40⌋ + 60
  { id := "resume_" ++ Nat.repr index
    fileName := fileName
    candidate := mockCandidateNames.getD (index % mockCandidateNames.length) ""
    email := mockCandidateEmails.getD (index % mockCandidateEmails.length) ""
    score := score
    status := if score ≥ 80 then .shortlisted else .rejected
    summary :=
      if score ≥ 80 then
        "Excellent match with " ++ Int.repr (⌊r.summaryYearsDraw * 3⌋ + 5) ++
          "+ years of relevant experience. Strong technical skills and cultural fit."
      else
        "Good candidate but missing key requirements. Limited experience in core technologies mentioned in job description."
    experience := Int.repr (⌊r.expYearsDraw * 8⌋ + 2) ++ " years"
    skills := mockSkillsPool.take ((⌊r.skillsDraw * 4⌋ + 3).toNat) }

/-- `mockResumes` in `simulateMockProcessing`: `uploadedFiles.map((file, index) => …)`. -/
def simulateMockResumes (rand : ℕ → RandDraws) (files : List String) : List CandidateResult :=
  files.mapIdx (fun index file => mkMockResume rand index file)

/-- The position label used in the rejection email subject and body:
`jobDescription.split(' ').slice(0, 3).join(' ')`. -/
def positionExcerpt (jobDescription : String) : String :=
  String.intercalate " " ((jobDescription.splitOn " ").take 3)

/-- The rejection email draft built for one rejected candidate in
`simulateMockProcessing` (the body of the `mockRejectionEmails` map). -/
def mkRejectionEmail (jobDescription : String) (resume : CandidateResult) : RejectionEmail :=
  { candidateId := resume.id
    candidate := resume.candidate
    email := resume.email
    subject := "Thank you for your application - " ++ positionExcerpt jobDescription ++ " Position"
    content :=
      "Dear " ++ resume.candidate ++ ",\n\n" ++
      "Thank you for taking the time to apply for the " ++ positionExcerpt jobDescription ++
      " position at our company. We appreciate your interest in joining our team.\n\n" ++
      "After careful review of your application and qualifications, we have decided to move forward with other candidates whose experience more closely aligns with our current requirements.\n\n" ++
      "We were impressed by your background and encourage you to apply for future opportunities that may be a better fit for your skills and experience.\n\n" ++
      "Thank you again for your interest in our company.\n\n" ++
      "Best regards,\nHR Team" }

/-- `rejectedCandidates`/`mockRejectionEmails` in `simulateMockProcessing`:
filter the resumes to status `rejected`, then map to drafts. -/
def mockRejectionEmails (jobDescription : String) (resumes : List CandidateResult) :
    List RejectionEmail :=
  (resumes.filter (fun resume => resume.status == Status.rejected)).map
    (mkRejectionEmail jobDescription)

/-! ### Results page (`ResultsPage`, `src/components/ResultsPage.tsx`) -/

/-- `shortlistedCandidates = processedResumes.filter(r => r.status === 'shortlisted')`. -/
def shortlistedCandidates (processedResumes : List CandidateResult) : List CandidateResult :=
  processedResumes.filter (fun resume => resume.status == Status.shortlisted)

/-- `rejectedCandidates = processedResumes.filter(r => r.status === 'rejected')`. -/
def rejectedCandidates (processedResumes : List CandidateResult) : List CandidateResult :=
  processedResumes.filter (fun resume => resume.status == Status.rejected)

/-- The results header reports `processedResumes.length` as the number of
processed resumes. -/
def totalProcessed (processedResumes : List CandidateResult) : ℕ :=
  processedResumes.length

/-- JavaScript numbers as produced by the average computation: a rational,
or one of the special values `NaN` / `±Infinity` produced by division. -/
inductive JSNum where
  | num (q : ℚ)
  | nan
  | posInf
  | negInf
deriving DecidableEq, Repr

/-- JavaScript division of two finite numbers: `0 / 0 = NaN`,
`x / 0 = ±Infinity` for `x ≠ 0`, ordinary division otherwise. -/
def jsDiv (a b : ℚ) : JSNum :=
  if b = 0 then (if a = 0 then .nan else if 0 < a then .posInf else .negInf)
  else .num (a / b)

/-- `Math.round`: `NaN`/`±Infinity` map to themselves; a finite value maps to
`⌊x + 1/2⌋` (round half towards positive infinity). -/
def jsRound : JSNum → JSNum
  | .num q => .num ((⌊q + 1/2⌋ : ℤ) : ℚ)
  | x => x

/-- `processedResumes.reduce((sum, r) => sum + r.score, 0)`. -/
def sumScores (processedResumes : List CandidateResult) : ℚ :=
  processedResumes.foldl (fun sum resume => sum + (resume.score : ℚ)) 0

/-- The Avg Score stat card of the results page:
`Math.round(processedResumes.reduce((sum, r) => sum + r.score, 0) / processedResumes.length)`. -/
def resultsAvgScore (processedResumes : List CandidateResult) : JSNum :=
  jsRound (jsDiv (sumScores processedResumes) (processedResumes.length : ℚ))

/-- The exact arithmetic mean of the candidate scores, as the spec words it. -/
def specMeanScore (processedResumes : List CandidateResult) : ℚ :=
  ((processedResumes.map (fun resume => (resume.score : ℚ))).sum) / (processedResumes.length : ℚ)

/-! ### Upload page (`UploadPage.tsx`) -/

/-- A browser `File` as the upload filter sees it: declared name, declared
MIME type, and the (never inspected) binary content. -/
structure JFile where
  name : String
  type : String
  content : String
deriving DecidableEq, Repr

/-- JavaScript `String.prototype.toLowerCase` (character-wise lowering). -/
def jsToLowerCase (s : String) : String :=
  ⟨s.data.map Char.toLower⟩

/-- JavaScript `String.prototype.endsWith` (suffix test on the characters). -/
def jsEndsWith (s suffix : String) : Bool :=
  suffix.data.isSuffixOf s.data

/-- The predicate of the filter in `handleFileUpload`:
`file.type === 'application/pdf' || file.name.toLowerCase().endsWith('.doc') ||
 file.name.toLowerCase().endsWith('.docx')`. -/
def acceptsResume (file : JFile) : Bool :=
  file.type == "application/pdf" ||
    jsEndsWith (jsToLowerCase file.name) ".doc" ||
    jsEndsWith (jsToLowerCase file.name) ".docx"

/-- `handleFileUpload`: keep only the accepted files
(`Array.from(files).filter(…)`). -/
def handleFileUploadFilter (files : List JFile) : List JFile :=
  files.filter acceptsResume

/-! ### API request (`resumeAPI.processResumes`, `api.ts`) and shared context -/

/-- A value appended to the `FormData` of the processing request. -/
inductive FormDataValue where
  | text (s : String)
  | file (f : JFile)
deriving DecidableEq, Repr

/-- `ProcessResumeRequest` from `src/types/api.ts`. -/
structure ProcessResumeRequest where
  jobDescription : String
  files : List JFile

/-- The `FormData` entries built by `resumeAPI.processResumes`:
`formData.append('jobDescription', data.jobDescription)` then
`data.files.forEach(file => formData.append('resumes', file))`. -/
def processResumesFormData (data : ProcessResumeRequest) : List (String × FormDataValue) :=
  ("jobDescription", .text data.jobDescription) ::
    data.files.map (fun file => ("resumes", .file file))

/-- The member names of the `ResumeContextType` interface in
`src/context/ResumeContext.tsx`, in declaration order. -/
def resumeContextMemberNames : List String :=
  ["jobDescription", "setJobDescription",
   "uploadedFiles", "setUploadedFiles",
   "processedResumes", "setProcessedResumes",
   "rejectionEmails", "setRejectionEmails",
   "processing", "setProcessing",
   "currentJobId", "setCurrentJobId",
   "resetProcess"]

/-! ### The backend pipeline, modelled from the spec -/

/-- Modelled from the spec: the per-file failure kinds of the error taxonomy
in section 7.  The FastAPI backend implementing them is not under src/. -/
inductive FileFailureKind where
  | unsupportedFormat
  | corruptOrUnreadable
  | emptyOrProtectedDocument
  | malformedAIResponse
  | aiServiceUnavailable
deriving DecidableEq, Repr

/-- Modelled from the spec: the batch-level errors of `runScreening`
(sections 6 and 7): all files failed, or persistence failed. -/
inductive BatchError where
  | allFilesFailed (failures : List (String × FileFailureKind))
  | persistenceFailure
deriving DecidableEq, Repr

/-- Modelled from the spec: the assembled result of a run (section 6):
successful candidate records, their rejection drafts, and the explicit
per-file failure list of section 7. -/
structure RunResult where
  candidates : List CandidateResult
  drafts : List RejectionEmail
  failures : List (String × FileFailureKind)
deriving DecidableEq, Repr

/-- The per-file outcome handed to the aggregator: either a candidate
record, or the per-file failure kind. -/
abbrev FileOutcome := Except FileFailureKind CandidateResult

/-- The files of a batch that produced a candidate record. -/
def fileSuccesses (outcomes : List (String × FileOutcome)) : List CandidateResult :=
  outcomes.filterMap (fun p =>
    match p.2 with
    | .ok c => some c
    | .error _ => none)

/-- The per-file failure list of a batch (filename and error kind). -/
def fileFailures (outcomes : List (String × FileOutcome)) :
    List (String × FileFailureKind) :=
  outcomes.filterMap (fun p =>
    match p.2 with
    | .ok _ => none
    | .error e => some (p.1, e))

/-- Modelled from the spec: `runScreening` (section 6), whose implementation
(the FastAPI backend) is not under src/ — only its HTTP caller
`processResumesWithAPI` is.  A run where every file fails is a batch-level
failure carrying the per-file errors; a persistence failure is fatal;
otherwise the successful records, their drafts, and the explicit per-file
failure list are returned together. -/
def runScreening (jobDescription : String) (outcomes : List (String × FileOutcome))
    (persistOk : Bool) : Except BatchError RunResult :=
  if (fileSuccesses outcomes).isEmpty then
    .error (.allFilesFailed (fileFailures outcomes))
  else if persistOk then
    .ok { candidates := fileSuccesses outcomes
          drafts := mockRejectionEmails jobDescription (fileSuccesses outcomes)
          failures := fileFailures outcomes }
  else
    .error .persistenceFailure

/-! ### Concrete inputs used by witnesses and counterexamples -/

/-- A constant randomness source whose score draw is exactly one half, so
the mock score is the boundary value 80. -/
def rand0 : ℕ → RandDraws := fun _ => ⟨1/2, 0, 0, 0⟩

/-- A constant randomness source whose score draw is zero, so the mock
score is 60 and the candidate is rejected. -/
def randLo : ℕ → RandDraws := fun _ => ⟨0, 0, 0, 0⟩

/-- A concrete rejected candidate record with score 60. -/
def candA : CandidateResult :=
  { id := "resume_0", fileName := "a.pdf", candidate := "Sarah Johnson",
    email := "sarah.j@email.com", score := 60, status := .rejected,
    summary := "s", experience := "2 years", skills := [] }

/-- A concrete rejected candidate record with score 61. -/
def candB : CandidateResult :=
  { id := "resume_1", fileName := "b.pdf", candidate := "Michael Chen",
    email := "michael.c@email.com", score := 61, status := .rejected,
    summary := "s", experience := "2 years", skills := [] }

/-- A file whose binary content carries the PDF magic bytes but whose
declared MIME type and extension are wrong. -/
def pdfMislabeled : JFile :=
  { name := "resume", type := "text/plain", content := "%PDF-1.4 binary resume content" }

/-! ## Theorems -/

theorem decValue_append (l₁ l₂ : List Char) :
    decValue (l₁ ++ l₂) = (l₂.foldl (fun a c => 10 * a + (c.toNat - 48)) (decValue l₁)) := by
  simp [decValue, List.foldl_append]

theorem digitChar_toNat {d : ℕ} (h : d < 10) : (Nat.digitChar d).toNat - 48 = d := by
  interval_cases d <;> decide

theorem decValue_decDigits (n : ℕ) : decValue (decDigits n) = n := by
  induction n using Nat.strong_induction_on with
  | _ n ih =>
    rw [decDigits]
    by_cases h : n / 10 = 0
    · have hlt : n < 10 := by omega
      have hmod : n % 10 = n := Nat.mod_eq_of_lt hlt
      simp [h, decValue, hmod, digitChar_toNat hlt]
    · have hpos : 0 < n := by
        rcases Nat.eq_zero_or_pos n with h0 | h0
        · exact absurd (by simp [h0]) h
        · exact h0
      have hdiv : n / 10 < n := Nat.div_lt_self hpos (by norm_num)
      simp only [h, dite_false]
      rw [decValue_append, ih (n / 10) hdiv]
      simp [digitChar_toNat (Nat.mod_lt _ (by norm_num) : n % 10 < 10)]
      omega

theorem decDigits_injective : Function.Injective decDigits := by
  intro m n h
  have := decValue_decDigits m
  rw [h, decValue_decDigits] at this
  exact this.symm

/-- `Nat.toDigitsCore` with enough fuel computes `decDigits`, with the
accumulator appended. -/
theorem toDigitsCore_eq (n : ℕ) : ∀ (fuel : ℕ) (ds : List Char), n < fuel →
    Nat.toDigitsCore 10 fuel n ds = decDigits n ++ ds := by
  induction n using Nat.strong_induction_on with
  | _ n ih =>
    intro fuel ds hfuel
    match fuel with
    | 0 => omega
    | fuel + 1 =>
      rw [Nat.toDigitsCore, decDigits]
      by_cases h : n / 10 = 0
      · simp [h]
      · have hpos : 0 < n := by
          rcases Nat.eq_zero_or_pos n with h0 | h0
          · exact absurd (by simp [h0]) h
          · exact h0
        have hdiv : n / 10 < n := Nat.div_lt_self hpos (by norm_num)
        simp only [h, dite_false, if_neg h]
        rw [ih (n / 10) hdiv fuel _ (by omega)]
        simp

theorem toDigits_eq_decDigits (n : ℕ) : Nat.toDigits 10 n = decDigits n := by
  rw [Nat.toDigits, toDigitsCore_eq n (n + 1) [] (Nat.lt_succ_self n)]
  simp

theorem natRepr_injective : Function.Injective Nat.repr := by
  intro m n h
  apply decDigits_injective
  rw [← toDigits_eq_decDigits, ← toDigits_eq_decDigits]
  unfold Nat.repr at h
  have : (Nat.toDigits 10 m).asString.data = (Nat.toDigits 10 n).asString.data := by rw [h]
  simpa [List.asString] using this

/-- The classification branch of `mkMockResume` is exactly the inclusive
comparison of the score with 80. -/
theorem mkMockResume_status_iff (rand : ℕ → RandDraws) (index : ℕ) (fileName : String) :
    (mkMockResume rand index fileName).status = Status.shortlisted ↔
      80 ≤ (mkMockResume rand index fileName).score := by
  simp only [mkMockResume]
  by_cases h : (80 : ℤ) ≤ ⌊(rand index).scoreDraw * 40⌋ + 60
  · simp [h]
  · simp [h]

/-- Every candidate of a mock run is `mkMockResume` at some index and file. -/
theorem mem_simulateMockResumes {rand : ℕ → RandDraws} {files : List String}
    {c : CandidateResult} (hc : c ∈ simulateMockResumes rand files) :
    ∃ index fileName, c = mkMockResume rand index fileName := by
  simp only [simulateMockResumes, List.mapIdx_eq_enum_map, List.mem_map] at hc
  obtain ⟨p, _, hp⟩ := hc
  exact ⟨p.1, p.2, hp.symm⟩

theorem mock_boundary_mem :
    mkMockResume rand0 0 "a.pdf" ∈ simulateMockResumes rand0 ["a.pdf"] := by
  have h : simulateMockResumes rand0 ["a.pdf"] = [mkMockResume rand0 0 "a.pdf"] := by
    simp [simulateMockResumes]
  rw [h]
  exact List.mem_singleton_self _

theorem mock_rejected_mem :
    mkMockResume randLo 0 "a.pdf" ∈ simulateMockResumes randLo ["a.pdf"] := by
  have h : simulateMockResumes randLo ["a.pdf"] = [mkMockResume randLo 0 "a.pdf"] := by
    simp [simulateMockResumes]
  rw [h]
  exact List.mem_singleton_self _

/-- The ids of a mock run are `resume_i` for the indices `i` of the files. -/
theorem map_id_simulateMockResumes (rand : ℕ → RandDraws) (files : List String) :
    (simulateMockResumes rand files).map (fun c => c.id) =
      (List.range files.length).map (fun i => "resume_" ++ Nat.repr i) := by
  simp only [simulateMockResumes, List.mapIdx_eq_enum_map, List.map_map]
  rw [← List.enum_map_fst files, List.map_map]
  rfl

theorem mkId_injective : Function.Injective (fun i : ℕ => "resume_" ++ Nat.repr i) := by
  intro a b h
  apply natRepr_injective
  have hd := congrArg String.data h
  simp only [String.data_append] at hd
  have := List.append_cancel_left hd
  exact String.ext this

/-- The candidate ids of a mock run are pairwise distinct. -/
theorem nodup_mock_ids (rand : ℕ → RandDraws) (files : List String) :
    ((simulateMockResumes rand files).map (fun c => c.id)).Nodup := by
  rw [map_id_simulateMockResumes]
  exact (List.nodup_range _).map mkId_injective

/-- The fold in the average computation equals the sum of the scores. -/
theorem sumScores_eq_sum_map (cs : List CandidateResult) :
    sumScores cs = (cs.map (fun r => (r.score : ℚ))).sum := by
  rw [sumScores, ← List.foldl_map (fun r : CandidateResult => (r.score : ℚ)) (· + ·)]
  rw [List.sum_eq_foldl]

/-- On a non-empty list the displayed average is the rounded exact mean,
and rounding moves the value by at most one half. -/
theorem avg_eq_round_mean (cs : List CandidateResult) (h : cs ≠ []) :
    resultsAvgScore cs = JSNum.num ((⌊specMeanScore cs + 1/2⌋ : ℤ) : ℚ) ∧
      |((⌊specMeanScore cs + 1/2⌋ : ℤ) : ℚ) - specMeanScore cs| ≤ 1 / 2 := by
  have hlen : (cs.length : ℚ) ≠ 0 := by
    simp [List.length_eq_zero]
    exact h
  constructor
  · rw [resultsAvgScore, jsDiv, if_neg hlen, jsRound, sumScores_eq_sum_map, specMeanScore]
  · have h1 : ((⌊specMeanScore cs + 1/2⌋ : ℤ) : ℚ) ≤ specMeanScore cs + 1/2 :=
      Int.floor_le _
    have h2 : specMeanScore cs + 1/2 < ((⌊specMeanScore cs + 1/2⌋ : ℤ) : ℚ) + 1 :=
      Int.lt_floor_add_one _
    rw [abs_le]
    constructor <;> linarith

/-- Claim C1: in a mock screening run the effective threshold is the
default 80 (the caller specifies none), and a candidate record has status
`shortlisted` exactly when its score is at least 80; the boundary is
inclusive. -/
theorem c1_shortlisted_iff_score_ge_threshold (rand : ℕ → RandDraws) (files : List String)
    (c : CandidateResult) (hc : c ∈ simulateMockResumes rand files) :
    c.status = Status.shortlisted ↔ 80 ≤ c.score := by
  obtain ⟨i, f, rfl⟩ := mem_simulateMockResumes hc
  exact mkMockResume_status_iff rand i f

/-- Witness for C1 at a concrete run whose single candidate sits exactly on
the boundary: the score draw is one half, the score is exactly 80, and the
candidate is shortlisted. -/
theorem c1_witness :
    (mkMockResume rand0 0 "a.pdf").status = Status.shortlisted ∧
      (mkMockResume rand0 0 "a.pdf").score = 80 := by
  refine ⟨?_, ?_⟩
  · exact (c1_shortlisted_iff_score_ge_threshold rand0 ["a.pdf"] _ mock_boundary_mem).2
      (by norm_num [mkMockResume, rand0])
  · norm_num [mkMockResume, rand0]

/-- Claim C2: in a mock screening run, the number of rejection drafts whose
`candidateId` equals the id of a given candidate of the run is one when the
candidate is rejected and zero when it is shortlisted. -/
theorem c2_draft_count_iff_rejected (rand : ℕ → RandDraws) (files : List String) (jd : String)
    (c : CandidateResult) (hc : c ∈ simulateMockResumes rand files) :
    ((mockRejectionEmails jd (simulateMockResumes rand files)).filter
        (fun d => d.candidateId == c.id)).length =
      if c.status = Status.rejected then 1 else 0 := by
  set cs := simulateMockResumes rand files with hcs
  have hnd : (cs.map (fun x => x.id)).Nodup := nodup_mock_ids rand files
  have hfm : (mockRejectionEmails jd cs).filter (fun d => d.candidateId == c.id) =
      ((cs.filter (fun r => r.status == Status.rejected)).filter
          (fun r => r.id == c.id)).map (mkRejectionEmail jd) := by
    rw [mockRejectionEmails, List.filter_map]
    rfl
  rw [hfm, List.length_map, ← List.countP_eq_length_filter]
  by_cases hst : c.status = Status.rejected
  · simp only [hst, if_pos rfl]
    set rejs := cs.filter (fun r => r.status == Status.rejected) with hrejs
    have hcr : c ∈ rejs := List.mem_filter.2 ⟨hc, by simp [hst]⟩
    have hsub : (rejs.map (fun x => x.id)).Sublist (cs.map (fun x => x.id)) :=
      (List.filter_sublist cs).map _
    have hndr : (rejs.map (fun x => x.id)).Nodup := hnd.sublist hsub
    have hcount : (rejs.map (fun x => x.id)).count c.id = 1 := by
      have hle := List.nodup_iff_count_le_one.1 hndr c.id
      have hpos : 0 < (rejs.map (fun x => x.id)).count c.id :=
        List.count_pos_iff.2 (List.mem_map_of_mem _ hcr)
      omega
    calc List.countP (fun r => r.id == c.id) rejs
        = List.countP (fun s => s == c.id) (rejs.map (fun x => x.id)) := by
          rw [List.countP_map]; rfl
      _ = 1 := hcount
  · simp only [if_neg hst]
    rw [List.countP_eq_length_filter, List.length_eq_zero, List.filter_eq_nil_iff]
    intro r hr
    simp only [beq_iff_eq]
    intro hid
    have hrc : r ∈ cs := (List.mem_filter.1 hr).1
    have hrst : r.status = Status.rejected := by
      have := (List.mem_filter.1 hr).2
      simpa using this
    have : r = c := List.inj_on_of_nodup_map hnd hrc hc hid
    rw [this] at hrst
    exact hst hrst

/-- Witness for C2 at a concrete run with one rejected candidate: exactly
one draft matches its id. -/
theorem c2_witness :
    ((mockRejectionEmails "Senior Software Engineer role"
          (simulateMockResumes randLo ["a.pdf"])).filter
        (fun d => d.candidateId == (mkMockResume randLo 0 "a.pdf").id)).length = 1 := by
  rw [c2_draft_count_iff_rejected randLo ["a.pdf"] "Senior Software Engineer role" _
    mock_rejected_mem]
  norm_num [mkMockResume, randLo]

/-- Claim C3: the number of processed resumes reported by the results page
is the sum of the shortlisted and the rejected counts, and the two-valued
status field puts every candidate record in exactly one of the two
partitions. -/
theorem c3_total_processed_partition :
    (∀ processedResumes : List CandidateResult,
        totalProcessed processedResumes =
          (shortlistedCandidates processedResumes).length +
            (rejectedCandidates processedResumes).length) ∧
      (∀ c : CandidateResult, c.status = Status.shortlisted ↔ ¬ c.status = Status.rejected) := by
  constructor
  · intro cs
    have e1 : (Status.shortlisted == Status.rejected) = false := rfl
    have e2 : (Status.rejected == Status.shortlisted) = false := rfl
    have e3 : (Status.shortlisted == Status.shortlisted) = true := rfl
    have e4 : (Status.rejected == Status.rejected) = true := rfl
    induction cs with
    | nil => rfl
    | cons head tail ih =>
      cases h : head.status <;>
        simp [totalProcessed, shortlistedCandidates, rejectedCandidates,
          List.filter_cons, h, e1, e2, e3, e4] at ih ⊢ <;>
          omega
  · intro c
    cases h : c.status <;> simp

/-- Counterexample to C4: for the two concrete candidates with scores 60
and 61 the results page reports the average 61, while the exact mean is
60.5, a distance of one half, not below `1e-6`. -/
theorem c4_counterexample :
    resultsAvgScore [candA, candB] = JSNum.num 61 ∧
      ¬ (|(61 : ℚ) - specMeanScore [candA, candB]| < 1 / 1000000) := by
  constructor
  · norm_num [resultsAvgScore, sumScores, jsDiv, jsRound, candA, candB]
  · norm_num [specMeanScore, candA, candB]
    rw [abs_of_pos (by norm_num)]
    norm_num

/-- Claim C4 as amended: on a non-empty candidate list the reported average
is `Math.round` of the exact arithmetic mean — within one half of the mean,
not within `1e-6` — and the denominator is the number of candidate records
only. -/
theorem c4_avg_is_rounded_mean (cs : List CandidateResult) (h : cs ≠ []) :
    resultsAvgScore cs = JSNum.num ((⌊specMeanScore cs + 1/2⌋ : ℤ) : ℚ) ∧
      |((⌊specMeanScore cs + 1/2⌋ : ℤ) : ℚ) - specMeanScore cs| ≤ 1 / 2 :=
  avg_eq_round_mean cs h

/-- Witness for C4 as amended, at the concrete two-candidate list. -/
theorem c4_witness :
    resultsAvgScore [candA, candB] =
        JSNum.num ((⌊specMeanScore [candA, candB] + 1/2⌋ : ℤ) : ℚ) ∧
      |((⌊specMeanScore [candA, candB] + 1/2⌋ : ℤ) : ℚ) - specMeanScore [candA, candB]| ≤ 1 / 2 :=
  c4_avg_is_rounded_mean [candA, candB] (by simp)

/-- Claim C5: the modelled `runScreening` returns a batch-level error only
when no file produced a candidate record or persistence failed, and on a
partially failed batch with persistence intact it returns the successful
records and drafts together with the explicit per-file failure list. -/
theorem c5_runScreening_error_policy (jobDescription : String)
    (outcomes : List (String × FileOutcome)) (persistOk : Bool) :
    (∀ e, runScreening jobDescription outcomes persistOk = Except.error e →
        fileSuccesses outcomes = [] ∨ persistOk = false) ∧
      (fileSuccesses outcomes ≠ [] → persistOk = true →
        runScreening jobDescription outcomes persistOk =
          Except.ok { candidates := fileSuccesses outcomes
                      drafts := mockRejectionEmails jobDescription (fileSuccesses outcomes)
                      failures := fileFailures outcomes }) := by
  constructor
  · intro e he
    by_cases h1 : (fileSuccesses outcomes).isEmpty
    · exact Or.inl (List.isEmpty_iff.1 h1)
    · by_cases h2 : persistOk
      · rw [runScreening, if_neg h1, if_pos h2] at he
        exact absurd he (by simp)
      · exact Or.inr (by simpa using h2)
  · intro h1 h2
    rw [runScreening, if_neg (by simpa [List.isEmpty_iff] using h1), if_pos h2]

/-- Witness for C5 at a concrete partially failed batch: one file succeeds,
one fails with `unsupportedFormat`, and the caller receives both the record
and the failure list. -/
theorem c5_witness :
    fileSuccesses [("a.pdf", Except.ok candA),
        ("b.txt", Except.error FileFailureKind.unsupportedFormat)] ≠ [] ∧
      runScreening "jd" [("a.pdf", .ok candA), ("b.txt", .error .unsupportedFormat)] true =
        Except.ok { candidates := [candA]
                    drafts := mockRejectionEmails "jd" [candA]
                    failures := [("b.txt", .unsupportedFormat)] } := by
  refine ⟨by decide, ?_⟩
  have h := (c5_runScreening_error_policy "jd"
    [("a.pdf", .ok candA), ("b.txt", .error .unsupportedFormat)] true).2 (by decide) rfl
  rw [h]
  rfl

/-- Counterexample to C6: a file whose content starts with the PDF magic
bytes but whose declared MIME type and extension are wrong is silently
dropped by the upload filter rather than attempted — acceptance never
sniffs content. -/
theorem c6_counterexample :
    handleFileUploadFilter [pdfMislabeled] = [] ∧
      pdfMislabeled.content.data.take 4 = ['%', 'P', 'D', 'F'] := by
  constructor
  · decide
  · decide

/-- Claim C6 as amended: the upload filter accepts exactly the files whose
declared MIME type is `application/pdf` or whose lowercased declared name
ends in `.doc` or `.docx`; the decision is independent of the file content,
so content is never sniffed. -/
theorem c6_acceptance_ignores_content (n t c₁ c₂ : String) :
    acceptsResume ⟨n, t, c₁⟩ = acceptsResume ⟨n, t, c₂⟩ ∧
      (acceptsResume ⟨n, t, c₁⟩ = true ↔
        (t = "application/pdf" ∨ jsEndsWith (jsToLowerCase n) ".doc" = true ∨
          jsEndsWith (jsToLowerCase n) ".docx" = true)) := by
  constructor
  · rfl
  · simp [acceptsResume, Bool.or_eq_true, beq_iff_eq, or_assoc]

/-- Claim C7: every rejection draft of a run has the subject
`Thank you for your application - ` followed by the position label derived
from the first three words of the job description. -/
theorem c7_subject_format (jd : String) (resumes : List CandidateResult) (d : RejectionEmail)
    (hd : d ∈ mockRejectionEmails jd resumes) :
    d.subject = "Thank you for your application - " ++ (positionExcerpt jd ++ " Position") := by
  simp only [mockRejectionEmails, List.mem_map] at hd
  obtain ⟨r, _, rfl⟩ := hd
  simp [mkRejectionEmail, String.append_assoc]

/-- Witness for C7 at a concrete job description and rejected candidate. -/
theorem c7_witness :
    (mkRejectionEmail "Senior Software Engineer role" candA).subject =
      "Thank you for your application - " ++
        (positionExcerpt "Senior Software Engineer role" ++ " Position") := by
  apply c7_subject_format "Senior Software Engineer role" [candA]
  simp [mockRejectionEmails, candA]

/-- Claim C8: the processing request carries exactly one `jobDescription`
entry and one `resumes` entry per file and nothing else — in particular no
comparison-score entry — and the `ResumeContextType` interface carries no
comparison-score member. -/
theorem c8_request_only_jd_and_files (data : ProcessResumeRequest) :
    ((processResumesFormData data).map Prod.fst =
        "jobDescription" :: data.files.map (fun _ => "resumes")) ∧
      "comparisonScore" ∉ (processResumesFormData data).map Prod.fst ∧
      "comparisonScore" ∉ resumeContextMemberNames ∧
      "setComparisonScore" ∉ resumeContextMemberNames := by
  have hcomp : (Prod.fst ∘ fun file : JFile => (("resumes" : String), FormDataValue.file file)) =
      fun _ => ("resumes" : String) := rfl
  refine ⟨?_, ?_, by decide, by decide⟩
  · simp only [processResumesFormData, List.map_cons, List.map_map, hcomp]
  · intro hmem
    simp only [processResumesFormData, List.map_cons, List.map_map, hcomp, List.mem_cons,
      List.mem_map] at hmem
    rcases hmem with h | ⟨f, _, h⟩
    · exact absurd h (by decide)
    · exact absurd h (by decide)

/-- Claim C9: the rejection drafter is a total pure function of
analyzer-produced data; two candidate records with the same candidate name
and email yield byte-identical subject and content for the same job
description, whatever their other fields. -/
theorem c9_drafter_deterministic (jd : String) (r₁ r₂ : CandidateResult)
    (hname : r₁.candidate = r₂.candidate) (_hemail : r₁.email = r₂.email) :
    (mkRejectionEmail jd r₁).subject = (mkRejectionEmail jd r₂).subject ∧
      (mkRejectionEmail jd r₁).content = (mkRejectionEmail jd r₂).content := by
  constructor
  · rfl
  · simp [mkRejectionEmail, hname]

/-- Witness for C9: the same candidate name and email with a different
score and status produce the identical subject and content. -/
theorem c9_witness :
    (mkRejectionEmail "jd" candA).subject =
        (mkRejectionEmail "jd" { candA with score := 99, status := .shortlisted }).subject ∧
      (mkRejectionEmail "jd" candA).content =
        (mkRejectionEmail "jd" { candA with score := 99, status := .shortlisted }).content :=
  c9_drafter_deterministic "jd" _ _ rfl rfl

/-- Claim C10: on the empty candidate list the average computation of the
results page divides zero by zero and displays `NaN`; on any non-empty list
it yields a finite number. -/
theorem c10_empty_average_nan :
    resultsAvgScore [] = JSNum.nan ∧
      ∀ cs : List CandidateResult, cs ≠ [] → ∃ q : ℚ, resultsAvgScore cs = JSNum.num q := by
  constructor
  · simp [resultsAvgScore, sumScores, jsDiv, jsRound]
  · intro cs h
    exact ⟨_, (avg_eq_round_mean cs h).1⟩

/-- Witness for C10 at the empty list and a concrete singleton list. -/
theorem c10_witness :
    resultsAvgScore [] = JSNum.nan ∧ ∃ q : ℚ, resultsAvgScore [candA] = JSNum.num q :=
  ⟨c10_empty_average_nan.1, c10_empty_average_nan.2 [candA] (by simp)⟩

end ResumeReviewer
